import Mathlib

/-!
# Verification of the statistical core of the AI-Powered Civil Infrastructure repository

Shallow embedding (over `ℚ`, with random draws made explicit parameters) of the
aggregation/scoring formulas of `finalwebapp_api.py` and of the dataset-building and
statistical routines of `advanced_analytics.py`, `advanced_data_analytics.py`,
`simplified_data_science.py` and `comprehensive_data_science.py`, together with
proofs and refutations of the specification's claims about them.
-/

namespace CivilInfra

/-! ## Common list statistics (pandas semantics)

`pandas.Series.quantile` with the default `interpolation='linear'` sorts the data and
interpolates at position `h = (n-1)·q`; `median()` is `quantile(0.5)`. -/

/-- Ascending sort, modelling the internal sort of `pandas` quantile computation. -/
def sortQ (xs : List ℚ) : List ℚ := xs.insertionSort (· ≤ ·)

/-- Linear-interpolation quantile on already-sorted data: the value at fractional
position `h = (n-1)·q`, i.e. `ys[⌊h⌋] + (h − ⌊h⌋)·(ys[⌈h⌉] − ys[⌊h⌋])`. -/
def quantileSorted (ys : List ℚ) (q : ℚ) : ℚ :=
  let h : ℚ := ((ys.length : ℚ) - 1) * q
  let a := ys.getD (Int.toNat ⌊h⌋) 0
  let b := ys.getD (Int.toNat ⌈h⌉) 0
  a + (h - (⌊h⌋ : ℚ)) * (b - a)

/-- `pandas` linear quantile of a column. -/
def quantile (xs : List ℚ) (q : ℚ) : ℚ := quantileSorted (sortQ xs) q

/-- `pandas` median: `quantile(0.5)` (mean of the two middle order statistics for even
length, the middle one for odd length). -/
def pmedian (xs : List ℚ) : ℚ := quantile xs (1/2)

/-- Column mean, `Series.mean()`. -/
def meanQ (xs : List ℚ) : ℚ := xs.sum / (xs.length : ℚ)

theorem sortQ_sorted (xs : List ℚ) : (sortQ xs).Sorted (· ≤ ·) :=
  List.sorted_insertionSort _ xs

theorem sortQ_length (xs : List ℚ) : (sortQ xs).length = xs.length :=
  List.length_insertionSort _ xs

/-! ## Aggregation & Scoring Engine (`finalwebapp_api.py`)

`analyze_image_comprehensive` (line 825) and `analyze` (line 1098) both compute
`structural_health_score = round(max(0, 100 - total_cracks * 5 -
growth_percentage), 1)`; `impact_level` (lines 812/1069) buckets
`carbon_footprint`; `risk_assessment` (lines 832/1105) buckets `total_cracks`.
The carbon and water footprints (lines 743–744) add `np.random.random()`-scaled
terms, modelled here as explicit draw parameters `r ∈ [0,1)`. -/

/-- Round-half-to-even to the nearest integer, the rule of Python's `round`.
(Python rounds the binary64 value; on dyadic rationals — all values used in the
counterexample — the two agree exactly.) -/
def roundHalfEven (x : ℚ) : ℤ :=
  if x - ⌊x⌋ < 1/2 then ⌊x⌋
  else if 1/2 < x - ⌊x⌋ then ⌊x⌋ + 1
  else if 2 ∣ ⌊x⌋ then ⌊x⌋ else ⌊x⌋ + 1

/-- Python's `round(x, 1)`: round-half-to-even at one decimal digit. -/
def round1 (x : ℚ) : ℚ := (roundHalfEven (10 * x) : ℚ) / 10

/-- `finalwebapp_api.py` lines 825/1098:
`round(max(0, 100 - total_cracks * 5 - growth_analysis['growth_percentage']), 1)`. -/
def structural_health_score (total_cracks : ℕ) (growth_percentage : ℚ) : ℚ :=
  round1 (max 0 (100 - (total_cracks : ℚ) * 5 - growth_percentage))

/-- The spec's `clamp(x, lo, hi)`. -/
def clamp (x lo hi : ℚ) : ℚ := min hi (max lo x)

/-- `finalwebapp_api.py` lines 812/1069:
`"Low" if carbon_footprint < 15 else "Medium" if carbon_footprint < 30 else "High"`. -/
def impact_level (carbon_footprint : ℚ) : String :=
  if carbon_footprint < 15 then "Low"
  else if carbon_footprint < 30 then "Medium"
  else "High"

/-- `finalwebapp_api.py` lines 832/1105:
`"Critical" if total_cracks > 10 else "Moderate" if total_cracks > 3 else "Low"`. -/
def risk_assessment (total_cracks : ℕ) : String :=
  if total_cracks > 10 then "Critical"
  else if total_cracks > 3 then "Moderate"
  else "Low"

/-- `finalwebapp_api.py` line 743:
`carbon_footprint = total_cracks * 2.5 + np.random.random() * 10`, with the uniform
draw `r ∈ [0,1)` made explicit. -/
def carbon_footprint (total_cracks : ℕ) (r : ℚ) : ℚ :=
  (total_cracks : ℚ) * (5/2) + r * 10

/-- `finalwebapp_api.py` line 744:
`water_footprint = growth_percentage * 15 + np.random.random() * 50`. -/
def water_footprint (growth_percentage : ℚ) (r : ℚ) : ℚ :=
  growth_percentage * 15 + r * 50

/-- `finalwebapp_api.py` line 773:
`sustainability_score = max(0, 10 - (carbon_footprint/5) - (water_footprint/100))`. -/
def sustainability_score (cf wf : ℚ) : ℚ :=
  max 0 (10 - cf / 5 - wf / 100)

/-- The three scores one run of the engine emits for a dataset summarised by
`(total_cracks, growth_percentage)`, given the two uniform draws of that run. -/
structure Scores where
  health : ℚ
  sustainability : ℚ
  bucket : String
  deriving DecidableEq, Repr

/-- One scoring run of `analyze_image_comprehensive`: footprints from the draws,
then the three emitted aggregates. -/
def compute_scores (total_cracks : ℕ) (growth_percentage : ℚ) (rc rw : ℚ) : Scores :=
  let cf := carbon_footprint total_cracks rc
  let wf := water_footprint growth_percentage rw
  { health := structural_health_score total_cracks growth_percentage
    sustainability := sustainability_score cf wf
    bucket := impact_level cf }

/-- `roundHalfEven` never rounds a nonnegative number below 0. -/
theorem roundHalfEven_nonneg {x : ℚ} (hx : 0 ≤ x) : 0 ≤ roundHalfEven x := by
  have h0 : (0:ℤ) ≤ ⌊x⌋ := Int.floor_nonneg.mpr hx
  unfold roundHalfEven
  split
  · exact h0
  · split
    · omega
    · split <;> omega

/-- `roundHalfEven` never rounds above an integer upper bound. -/
theorem roundHalfEven_le {x : ℚ} {z : ℤ} (hxz : x ≤ (z : ℚ)) : roundHalfEven x ≤ z := by
  have hfl : ⌊x⌋ ≤ z := by
    have h := Int.floor_mono hxz
    rwa [Int.floor_intCast] at h
  have hflq : (⌊x⌋ : ℚ) ≤ x := Int.floor_le x
  unfold roundHalfEven
  split
  · exact hfl
  · rename_i hnot1
    push_neg at hnot1
    have hlt : ⌊x⌋ < z := by
      have hq : (⌊x⌋ : ℚ) < (z : ℚ) := by linarith
      exact_mod_cast hq
    split
    · omega
    · split <;> omega

/-- One-decimal rounding maps `[0, 100]` into `[0, 100]`. -/
theorem round1_bounds {x : ℚ} (h0 : 0 ≤ x) (h100 : x ≤ 100) :
    0 ≤ round1 x ∧ round1 x ≤ 100 := by
  have ha : 0 ≤ roundHalfEven (10 * x) := roundHalfEven_nonneg (by linarith)
  have hb : roundHalfEven (10 * x) ≤ (1000 : ℤ) := roundHalfEven_le (by push_cast; linarith)
  constructor
  · unfold round1
    apply div_nonneg _ (by norm_num)
    exact_mod_cast ha
  · unfold round1
    rw [div_le_iff (by norm_num)]
    calc ((roundHalfEven (10 * x) : ℤ) : ℚ) ≤ ((1000 : ℤ) : ℚ) := by exact_mod_cast hb
      _ = 100 * 10 := by norm_num

/-- C1 counterexample: at 0 cracks and growth percentage `1/4` (a dyadic value, so
binary floating point represents it exactly) the code reports
`round(99.75, 1) = 99.8`, while `clamp(100 − 0 − 1/4, 0, 100) = 99.75`: the reported
score is the rounded value, not `clamp` itself. -/
theorem health_score_rounding_cex :
    structural_health_score 0 (1/4) = 499/5 ∧
    clamp (100 - 5 * ((0:ℕ):ℚ) - 1/4) 0 100 = 399/4 ∧
    structural_health_score 0 (1/4) ≠ clamp (100 - 5 * ((0:ℕ):ℚ) - 1/4) 0 100 := by
  have hmax : max (0:ℚ) (100 - ((0:ℕ):ℚ) * 5 - 1/4) = 399/4 := by
    rw [max_eq_right (by norm_num)]
    norm_num
  have h10 : (10:ℚ) * (399/4) = 1995/2 := by norm_num
  have hf : (⌊(1995/2 : ℚ)⌋ : ℤ) = 997 := by norm_num
  have hrhe : roundHalfEven ((10:ℚ) * (399/4)) = 998 := by
    rw [h10]
    unfold roundHalfEven
    rw [hf]
    norm_num
  have h1 : structural_health_score 0 (1/4) = 499/5 := by
    unfold structural_health_score round1
    rw [hmax, hrhe]
    norm_num
  have h2 : clamp (100 - 5 * ((0:ℕ):ℚ) - 1/4) 0 100 = 399/4 := by
    unfold clamp
    rw [max_eq_right (by norm_num), min_eq_right (by norm_num)]
    norm_num
  refine ⟨h1, h2, ?_⟩
  rw [h1, h2]
  norm_num

/-- C1 (amended): the reported structural health score is the one-decimal rounding
`round(clamp(100 − 5·crack_count − growth, 0, 100), 1)`, and for every
crack_count ≥ 0 and growth ≥ 0 it lies in `[0, 100]`. -/
theorem health_score_clamp (total_cracks : ℕ) (growth_percentage : ℚ)
    (hg : 0 ≤ growth_percentage) :
    structural_health_score total_cracks growth_percentage
      = round1 (clamp (100 - 5 * (total_cracks : ℚ) - growth_percentage) 0 100) ∧
    0 ≤ structural_health_score total_cracks growth_percentage ∧
    structural_health_score total_cracks growth_percentage ≤ 100 := by
  have hc : (0:ℚ) ≤ (total_cracks : ℚ) := by positivity
  have hle : 100 - 5 * (total_cracks : ℚ) - growth_percentage ≤ 100 := by linarith
  have hmc : max 0 (100 - (total_cracks : ℚ) * 5 - growth_percentage)
      = clamp (100 - 5 * (total_cracks : ℚ) - growth_percentage) 0 100 := by
    unfold clamp
    rw [mul_comm]
    exact (min_eq_right (max_le (by norm_num) hle)).symm
  have h0 : 0 ≤ max (0:ℚ) (100 - (total_cracks : ℚ) * 5 - growth_percentage) :=
    le_max_left 0 _
  have h100 : max (0:ℚ) (100 - (total_cracks : ℚ) * 5 - growth_percentage) ≤ 100 :=
    max_le (by norm_num) (by linarith)
  refine ⟨?_, ?_, ?_⟩
  · unfold structural_health_score
    rw [hmc]
  · unfold structural_health_score
    exact (round1_bounds h0 h100).1
  · unfold structural_health_score
    exact (round1_bounds h0 h100).2

/-- Witness for `health_score_clamp` at `total_cracks = 3`, `growth = 7`. -/
theorem health_score_clamp_witness :
    structural_health_score 3 7 = round1 (clamp (100 - 5 * (3:ℚ) - 7) 0 100) ∧
    0 ≤ structural_health_score 3 7 ∧ structural_health_score 3 7 ≤ 100 :=
  health_score_clamp 3 7 (by norm_num)

/-- C2 counterexample: with carbon_footprint 40 (above every carbon threshold) and
100 cracks (far above the crack threshold 10), the carbon-derived bucket
`impact_level` stays "High" — it never escalates to "Critical"; "Critical" appears
only in the separate crack-count field `risk_assessment`. -/
theorem impact_level_never_critical_cex :
    impact_level 40 = "High" ∧ risk_assessment 100 = "Critical" ∧
    impact_level 40 ≠ "Critical" := by
  refine ⟨?_, ?_, ?_⟩ <;> decide

/-- C2 (amended): the carbon bucket is Low below 15, Medium below 30, High otherwise,
and is never "Critical"; the separate field `risk_assessment` is "Critical" exactly
when crack_count exceeds the fixed threshold 10, independently of carbon_footprint. -/
theorem impact_level_spec (cf : ℚ) (cracks : ℕ) :
    (cf < 15 → impact_level cf = "Low") ∧
    (15 ≤ cf → cf < 30 → impact_level cf = "Medium") ∧
    (30 ≤ cf → impact_level cf = "High") ∧
    impact_level cf ≠ "Critical" ∧
    (risk_assessment cracks = "Critical" ↔ 10 < cracks) := by
  unfold impact_level risk_assessment
  refine ⟨fun h => if_pos h, fun h1 h2 => ?_, fun h => ?_, ?_, ?_⟩
  · rw [if_neg (not_lt.mpr h1), if_pos h2]
  · rw [if_neg (by linarith), if_neg (by linarith)]
  · split
    · simp
    · split <;> simp
  · constructor
    · intro h
      by_contra hc
      rw [if_neg hc] at h
      split at h <;> simp_all
    · intro h
      rw [if_pos h]

/-- Witness for `impact_level_spec` at `cf = 20`, `cracks = 11`. -/
theorem impact_level_spec_witness :
    impact_level 20 = "Medium" ∧ risk_assessment 11 = "Critical" :=
  ⟨(impact_level_spec 20 11).2.1 (by norm_num) (by norm_num),
   (impact_level_spec 20 11).2.2.2.2.mpr (by norm_num)⟩

/-- C4 counterexample: the same dataset summary (5 cracks, growth 0) scored in two
runs whose carbon draws are 0 and 1/2 (both legal values of `np.random.random()`)
produces different SustainabilityScores and different RiskBuckets: the scores are
not a function of the Dataset alone. -/
theorem scores_not_deterministic_cex :
    ((0:ℚ) ≤ 0 ∧ (0:ℚ) < 1) ∧ ((0:ℚ) ≤ 1/2 ∧ (1/2:ℚ) < 1) ∧
    (compute_scores 5 0 0 0).bucket = "Low" ∧
    (compute_scores 5 0 (1/2) 0).bucket = "Medium" ∧
    (compute_scores 5 0 0 0).sustainability = 15/2 ∧
    (compute_scores 5 0 (1/2) 0).sustainability = 13/2 ∧
    (compute_scores 5 0 0 0).bucket ≠ (compute_scores 5 0 (1/2) 0).bucket := by
  have h1 : carbon_footprint 5 0 = 25/2 := by norm_num [carbon_footprint]
  have h2 : carbon_footprint 5 (1/2) = 35/2 := by norm_num [carbon_footprint]
  have b1 : (compute_scores 5 0 0 0).bucket = "Low" := by
    show impact_level (carbon_footprint 5 0) = "Low"
    rw [h1]
    unfold impact_level
    rw [if_pos (by norm_num)]
  have b2 : (compute_scores 5 0 (1/2) 0).bucket = "Medium" := by
    show impact_level (carbon_footprint 5 (1/2)) = "Medium"
    rw [h2]
    unfold impact_level
    rw [if_neg (by norm_num), if_pos (by norm_num)]
  refine ⟨⟨le_refl 0, by norm_num⟩, ⟨by norm_num, by norm_num⟩, b1, b2, ?_, ?_, ?_⟩
  · show sustainability_score (carbon_footprint 5 0) (water_footprint 0 0) = 15/2
    rw [h1]
    norm_num [sustainability_score, water_footprint, max_def]
  · show sustainability_score (carbon_footprint 5 (1/2)) (water_footprint 0 0) = 13/2
    rw [h2]
    norm_num [sustainability_score, water_footprint, max_def]
  · rw [b1, b2]
    decide

/-- C4 (amended): HealthScore is a deterministic function of the Dataset summary
alone (it ignores the random draws), and the whole score triple is deterministic
once the two uniform draws of the run are fixed. -/
theorem scores_deterministic_given_draws (c : ℕ) (g rc rw rc' rw' : ℚ) :
    (compute_scores c g rc rw).health = (compute_scores c g rc' rw').health ∧
    (rc = rc' → rw = rw' → compute_scores c g rc rw = compute_scores c g rc' rw') := by
  refine ⟨rfl, ?_⟩
  rintro rfl rfl
  rfl

/-- Witness for `scores_deterministic_given_draws` at concrete inputs. -/
theorem scores_deterministic_given_draws_witness :
    (compute_scores 2 1 0 0).health = (compute_scores 2 1 (1/2) (1/3)).health ∧
    compute_scores 2 1 (1/4) (1/4) = compute_scores 2 1 (1/4) (1/4) :=
  ⟨(scores_deterministic_given_draws 2 1 0 0 (1/2) (1/3)).1,
   (scores_deterministic_given_draws 2 1 (1/4) (1/4) (1/4) (1/4)).2 rfl rfl⟩

/-! ## Calibration / data integration (`advanced_analytics.py`, lines 126–191)

`retrieve_and_integrate_data` turns each crack dict into one integrated record.
The geometric fields are pure functions of the crack; `structure_age_years`,
`load_capacity_tons`, `weather_exposure` and `maintenance_history` are drawn from
`np.random` at every call (lines 143–146), modelled by an explicit `RecordDraws`. -/

/-- The fields of a crack dict consumed by the integrator. -/
structure Crack where
  width_cm : ℚ
  length_cm : ℚ
  severity : String
  confidence : ℚ
  deriving DecidableEq, Repr

/-- One call's simulated draws (`advanced_analytics.py` lines 143–146):
`np.random.randint(5, 50)`, `np.random.uniform(50, 500)`, and the two
`np.random.choice` calls. -/
structure RecordDraws where
  structure_age_years : ℕ
  load_capacity_tons : ℚ
  weather_exposure : String
  maintenance_history : String
  deriving DecidableEq, Repr

/-- One row of the integrated DataFrame (`advanced_analytics.py` lines 132–148). -/
structure IntegratedRecord where
  structure_id : String
  crack_width_mm : ℚ
  crack_length_mm : ℚ
  crack_area_mm2 : ℚ
  severity_level : String
  detection_confidence : ℚ
  material_type : String
  carbon_footprint_kg : ℚ
  water_footprint_liters : ℚ
  inspection_date : String
  structure_age_years : ℕ
  load_capacity_tons : ℚ
  weather_exposure : String
  maintenance_history : String
  deriving DecidableEq, Repr

/-- `advanced_analytics.py` lines 132–148: the record built for crack number `i`:
`width_cm*10`, `length_cm*10`, `width_cm*length_cm*100`, the crack's severity and
confidence, the context material/footprints, today's date, and the four draws. -/
def make_crack_record (i : ℕ) (crack : Crack) (material : String) (cf wf : ℚ)
    (today : String) (d : RecordDraws) : IntegratedRecord :=
  { structure_id := "struct_" ++ toString (i + 1)
    crack_width_mm := crack.width_cm * 10
    crack_length_mm := crack.length_cm * 10
    crack_area_mm2 := crack.width_cm * crack.length_cm * 100
    severity_level := crack.severity
    detection_confidence := crack.confidence
    material_type := material
    carbon_footprint_kg := cf
    water_footprint_liters := wf
    inspection_date := today
    structure_age_years := d.structure_age_years
    load_capacity_tons := d.load_capacity_tons
    weather_exposure := d.weather_exposure
    maintenance_history := d.maintenance_history }

/-- C5 counterexample: calibrating the identical crack twice, with age draws 5 and 6
(both legal outputs of `np.random.randint(5, 50)`), yields records that are not
bit-identical — `structure_age_years` differs. -/
theorem calibration_not_idempotent_cex :
    (5 ≤ 5 ∧ 5 < 50) ∧ (5 ≤ 6 ∧ 6 < 50) ∧
    make_crack_record 0 ⟨2, 5, "Minor", 9/10⟩ "Concrete" 1 2 "2026-10-12"
        ⟨5, 100, "Low", "Regular"⟩
      ≠ make_crack_record 0 ⟨2, 5, "Minor", 9/10⟩ "Concrete" 1 2 "2026-10-12"
        ⟨6, 100, "Low", "Regular"⟩ := by
  refine ⟨by omega, by omega, ?_⟩
  intro h
  have := congrArg IntegratedRecord.structure_age_years h
  simp [make_crack_record] at this

/-- C5 (amended): the calibrated measurement fields (width, length, area, severity,
confidence) are a pure function of the crack's fields — equal across any two draws —
and record construction is deterministic once the draws are fixed. -/
theorem calibration_measurement_fields_pure (i : ℕ) (c : Crack) (material : String)
    (cf wf : ℚ) (today : String) (d d' : RecordDraws) :
    (make_crack_record i c material cf wf today d).crack_width_mm
      = (make_crack_record i c material cf wf today d').crack_width_mm ∧
    (make_crack_record i c material cf wf today d).crack_length_mm
      = (make_crack_record i c material cf wf today d').crack_length_mm ∧
    (make_crack_record i c material cf wf today d).crack_area_mm2
      = (make_crack_record i c material cf wf today d').crack_area_mm2 ∧
    (make_crack_record i c material cf wf today d).severity_level
      = (make_crack_record i c material cf wf today d').severity_level ∧
    (make_crack_record i c material cf wf today d).detection_confidence
      = (make_crack_record i c material cf wf today d').detection_confidence ∧
    (d = d' → make_crack_record i c material cf wf today d
      = make_crack_record i c material cf wf today d') := by
  refine ⟨rfl, rfl, rfl, rfl, rfl, ?_⟩
  rintro rfl
  rfl

/-- Witness for `calibration_measurement_fields_pure` at concrete inputs. -/
theorem calibration_measurement_fields_pure_witness :
    (make_crack_record 1 ⟨1, 2, "Severe", 1⟩ "Steel" 3 4 "2026-10-12"
        ⟨7, 60, "High", "Poor"⟩).crack_width_mm
      = (make_crack_record 1 ⟨1, 2, "Severe", 1⟩ "Steel" 3 4 "2026-10-12"
        ⟨8, 70, "Low", "Regular"⟩).crack_width_mm ∧
    make_crack_record 1 ⟨1, 2, "Severe", 1⟩ "Steel" 3 4 "2026-10-12"
        ⟨7, 60, "High", "Poor"⟩
      = make_crack_record 1 ⟨1, 2, "Severe", 1⟩ "Steel" 3 4 "2026-10-12"
        ⟨7, 60, "High", "Poor"⟩ :=
  ⟨(calibration_measurement_fields_pure 1 ⟨1, 2, "Severe", 1⟩ "Steel" 3 4 "2026-10-12"
      ⟨7, 60, "High", "Poor"⟩ ⟨8, 70, "Low", "Regular"⟩).1,
   (calibration_measurement_fields_pure 1 ⟨1, 2, "Severe", 1⟩ "Steel" 3 4 "2026-10-12"
      ⟨7, 60, "High", "Poor"⟩ ⟨7, 60, "High", "Poor"⟩).2.2.2.2.2 rfl⟩

/-! ## Outlier treatment at dataset build time (C3)

`advanced_analytics.py` lines 203–212 cap each numeric column with
`np.clip(df[col], Q1 - 1.5*IQR, Q3 + 1.5*IQR)`; `simplified_data_science.py`
lines 98–108 and `comprehensive_data_science.py` lines 130–141 instead keep only
the rows inside the bounds (`df = df[(df[col] >= lower) & (df[col] <= upper)]`). -/

/-- On a sorted list, `getD _ 0` is monotone over in-range indices. -/
theorem sorted_getD_mono {ys : List ℚ} (hs : ys.Sorted (· ≤ ·)) {i j : ℕ}
    (hij : i ≤ j) (hj : j < ys.length) : ys.getD i 0 ≤ ys.getD j 0 := by
  have hi : i < ys.length := lt_of_le_of_lt hij hj
  rw [List.getD_eq_get _ _ hi, List.getD_eq_get _ _ hj]
  exact hs.rel_get_of_le (Fin.mk_le_mk.mpr hij)

/-- Linear interpolation over a sorted list is monotone in the fractional position. -/
theorem interpolate_mono {ys : List ℚ} (hs : ys.Sorted (· ≤ ·))
    {x y : ℚ} (hx0 : 0 ≤ x) (hxy : x ≤ y) (hyn : y ≤ (ys.length : ℚ) - 1) :
    ys.getD (Int.toNat ⌊x⌋) 0
        + (x - (⌊x⌋ : ℚ)) * (ys.getD (Int.toNat ⌈x⌉) 0 - ys.getD (Int.toNat ⌊x⌋) 0)
      ≤ ys.getD (Int.toNat ⌊y⌋) 0
        + (y - (⌊y⌋ : ℚ)) * (ys.getD (Int.toNat ⌈y⌉) 0 - ys.getD (Int.toNat ⌊y⌋) 0) := by
  have hy0 : 0 ≤ y := le_trans hx0 hxy
  have hn : 1 ≤ ys.length := by
    rcases Nat.eq_zero_or_pos ys.length with h0 | h1
    · exfalso
      rw [h0] at hyn
      norm_num at hyn
      linarith
    · exact h1
  have hfx0 : (0:ℤ) ≤ ⌊x⌋ := Int.floor_nonneg.mpr hx0
  have hfy0 : (0:ℤ) ≤ ⌊y⌋ := Int.floor_nonneg.mpr hy0
  have hfcx : ⌊x⌋ ≤ ⌈x⌉ := Int.floor_le_ceil x
  have hfcy : ⌊y⌋ ≤ ⌈y⌉ := Int.floor_le_ceil y
  have hff : ⌊x⌋ ≤ ⌊y⌋ := Int.floor_mono hxy
  have hcc : ⌈x⌉ ≤ ⌈y⌉ := Int.ceil_mono hxy
  have hcy : ⌈y⌉ ≤ (ys.length : ℤ) - 1 := by
    rw [Int.ceil_le]
    push_cast
    exact hyn
  have hcfx : ⌈x⌉ ≤ ⌊x⌋ + 1 := Int.ceil_le_floor_add_one x
  have hcfy : ⌈y⌉ ≤ ⌊y⌋ + 1 := Int.ceil_le_floor_add_one y
  have hux : Int.toNat ⌈x⌉ < ys.length := by omega
  have huy : Int.toNat ⌈y⌉ < ys.length := by omega
  have hfracx0 : 0 ≤ x - (⌊x⌋:ℚ) := sub_nonneg.mpr (Int.floor_le x)
  have hfracx1 : x - (⌊x⌋:ℚ) ≤ 1 := by linarith [Int.lt_floor_add_one x]
  have hfracy0 : 0 ≤ y - (⌊y⌋:ℚ) := sub_nonneg.mpr (Int.floor_le y)
  set a1 := ys.getD (Int.toNat ⌊x⌋) 0 with ha1
  set b1 := ys.getD (Int.toNat ⌈x⌉) 0 with hb1
  set a2 := ys.getD (Int.toNat ⌊y⌋) 0 with ha2
  set b2 := ys.getD (Int.toNat ⌈y⌉) 0 with hb2
  have hab1 : a1 ≤ b1 := sorted_getD_mono hs (by omega) hux
  have hab2 : a2 ≤ b2 := sorted_getD_mono hs (by omega) huy
  by_cases hcase : ⌈x⌉ ≤ ⌊y⌋
  · have hba : b1 ≤ a2 := sorted_getD_mono hs (by omega) (by omega)
    have hm1 : (x - (⌊x⌋:ℚ)) * (b1 - a1) ≤ 1 * (b1 - a1) :=
      mul_le_mul_of_nonneg_right hfracx1 (sub_nonneg.mpr hab1)
    have hm2 : 0 ≤ (y - (⌊y⌋:ℚ)) * (b2 - a2) :=
      mul_nonneg hfracy0 (sub_nonneg.mpr hab2)
    linarith
  · push_neg at hcase
    have hfeq : ⌊x⌋ = ⌊y⌋ := by omega
    by_cases hyint : ⌈y⌉ = ⌊y⌋
    · have hyx : y ≤ x := by
        calc y ≤ ((⌈y⌉ : ℤ) : ℚ) := Int.le_ceil y
          _ = ((⌊x⌋ : ℤ) : ℚ) := by rw [hyint, hfeq]
          _ ≤ x := Int.floor_le x
      obtain rfl : x = y := le_antisymm hxy hyx
      exact le_rfl
    · have i1 : Int.toNat ⌊x⌋ = Int.toNat ⌊y⌋ := by omega
      have i2 : Int.toNat ⌈x⌉ = Int.toNat ⌈y⌉ := by omega
      have e1 : a1 = a2 := by rw [ha1, ha2, i1]
      have e2 : b1 = b2 := by rw [hb1, hb2, i2]
      have efl : ((⌊x⌋:ℤ):ℚ) = ((⌊y⌋:ℤ):ℚ) := by rw [hfeq]
      rw [e1, e2, efl]
      nlinarith [mul_nonneg (sub_nonneg.mpr hxy) (sub_nonneg.mpr hab2)]

/-- The linear-interpolation quantile is monotone in the level on sorted data. -/
theorem quantileSorted_mono {ys : List ℚ} (hs : ys.Sorted (· ≤ ·)) (hne : ys ≠ [])
    {q r : ℚ} (h0 : 0 ≤ q) (hqr : q ≤ r) (h1 : r ≤ 1) :
    quantileSorted ys q ≤ quantileSorted ys r := by
  have hn : 1 ≤ ys.length := List.length_pos.mpr hne
  have hn1 : (0:ℚ) ≤ (ys.length : ℚ) - 1 := by
    have h2 : (1:ℚ) ≤ (ys.length : ℚ) := by exact_mod_cast hn
    linarith
  have hyn : ((ys.length : ℚ) - 1) * r ≤ (ys.length : ℚ) - 1 := by
    calc ((ys.length:ℚ) - 1) * r ≤ ((ys.length:ℚ) - 1) * 1 :=
          mul_le_mul_of_nonneg_left h1 hn1
      _ = (ys.length:ℚ) - 1 := mul_one _
  exact interpolate_mono hs (mul_nonneg hn1 h0) (mul_le_mul_of_nonneg_left hqr hn1) hyn

/-- The quantile of a nonempty column is monotone in the level. -/
theorem quantile_mono (xs : List ℚ) (hne : xs ≠ []) {q r : ℚ}
    (h0 : 0 ≤ q) (hqr : q ≤ r) (h1 : r ≤ 1) : quantile xs q ≤ quantile xs r := by
  apply quantileSorted_mono (sortQ_sorted xs) _ h0 hqr h1
  intro h
  apply hne
  have h2 := congrArg List.length h
  rw [sortQ_length] at h2
  simpa using h2

/-- `Q1 - 1.5·IQR`, the shared lower outlier bound of all three cleansing routines. -/
def iqr_lower (xs : List ℚ) : ℚ :=
  quantile xs (1/4) - (3/2) * (quantile xs (3/4) - quantile xs (1/4))

/-- `Q3 + 1.5·IQR`, the shared upper outlier bound. -/
def iqr_upper (xs : List ℚ) : ℚ :=
  quantile xs (3/4) + (3/2) * (quantile xs (3/4) - quantile xs (1/4))

/-- `advanced_analytics.py` lines 203–212: `np.clip(df[col], lower, upper)`
(`np.clip x lo hi = min hi (max lo x)`), applied elementwise to the column. -/
def cap_outliers (xs : List ℚ) : List ℚ :=
  xs.map (fun v => min (iqr_upper xs) (max (iqr_lower xs) v))

/-- `simplified_data_science.py` lines 98–108 and `comprehensive_data_science.py`
lines 130–141: `df = df[(df[col] >= lower_bound) & (df[col] <= upper_bound)]`,
which keeps only the in-bounds rows. -/
def remove_outliers (xs : List ℚ) : List ℚ :=
  xs.filter (fun v => decide (iqr_lower xs ≤ v) && decide (v ≤ iqr_upper xs))

/-- C3 counterexample: on column `[1, 2, 3, 4, 100]` the cleansing of
`simplified_data_science.cleanse_data` (same filter as
`comprehensive_data_science.cleanse_data`) removes the row holding `100`
(`Q1 = 2`, `Q3 = 4`, bounds `[-1, 7]`): the row count drops from 5 to 4, so
cleansing does not cap-and-preserve on every cited implementation. -/
theorem remove_outliers_drops_rows_cex :
    remove_outliers [1, 2, 3, 4, 100] = [1, 2, 3, 4] ∧
    (remove_outliers [1, 2, 3, 4, 100]).length = 4 ∧
    ([1, 2, 3, 4, 100] : List ℚ).length = 5 := by
  have hs : sortQ [1, 2, 3, 4, 100] = [1, 2, 3, 4, 100] := by
    norm_num [sortQ, List.insertionSort, List.orderedInsert]
  have hq1 : quantile [1, 2, 3, 4, 100] (1/4) = 2 := by
    unfold quantile
    rw [hs]
    norm_num [quantileSorted]
  have hq3 : quantile [1, 2, 3, 4, 100] (3/4) = 4 := by
    unfold quantile
    rw [hs]
    norm_num [quantileSorted]
    rfl
  have hl : iqr_lower [1, 2, 3, 4, 100] = -1 := by
    unfold iqr_lower
    rw [hq1, hq3]
    norm_num
  have hu : iqr_upper [1, 2, 3, 4, 100] = 7 := by
    unfold iqr_upper
    rw [hq1, hq3]
    norm_num
  have hr : remove_outliers [1, 2, 3, 4, 100] = [1, 2, 3, 4] := by
    unfold remove_outliers
    rw [hl, hu]
    norm_num [List.filter_cons, decide_eq_true_eq]
  refine ⟨hr, by rw [hr]; rfl, rfl⟩

/-- C3 (amended): the `advanced_analytics.cleanse_and_transform_data` treatment does
cap rather than remove: for every nonempty numeric column the clipped column has the
same length, and every resulting value lies within `[Q1 - 1.5·IQR, Q3 + 1.5·IQR]` of
the pre-capping distribution; the `simplified`/`comprehensive` analyzers instead drop
the out-of-bounds rows. -/
theorem cleanse_caps_outliers (xs : List ℚ) (hne : xs ≠ []) :
    (cap_outliers xs).length = xs.length ∧
    iqr_lower xs ≤ iqr_upper xs ∧
    ∀ y ∈ cap_outliers xs, iqr_lower xs ≤ y ∧ y ≤ iqr_upper xs := by
  have hq : quantile xs (1/4) ≤ quantile xs (3/4) :=
    quantile_mono xs hne (by norm_num) (by norm_num) (by norm_num)
  have hlu : iqr_lower xs ≤ iqr_upper xs := by
    unfold iqr_lower iqr_upper
    linarith
  refine ⟨by simp [cap_outliers], hlu, ?_⟩
  intro y hy
  simp only [cap_outliers, List.mem_map] at hy
  obtain ⟨v, hv, rfl⟩ := hy
  exact ⟨le_min hlu (le_max_left _ _), min_le_left _ _⟩

/-- Witness for `cleanse_caps_outliers` on the column `[1, 2, 3]`. -/
theorem cleanse_caps_outliers_witness :
    (cap_outliers [1, 2, 3]).length = ([1, 2, 3] : List ℚ).length ∧
    iqr_lower [1, 2, 3] ≤ iqr_upper [1, 2, 3] ∧
    ∀ y ∈ cap_outliers [1, 2, 3], iqr_lower [1, 2, 3] ≤ y ∧ y ≤ iqr_upper [1, 2, 3] :=
  cleanse_caps_outliers [1, 2, 3] (List.cons_ne_nil _ _)

/-! ## One-sample hypothesis tests (C6)

`advanced_analytics.comprehensive_hypothesis_testing` (lines 602–621) runs
`perform_one_sample_tests` (lines 624–645) per numeric column when the column has
more than one distinct value and `n ≥ 3`; that routine uses `data.median()` as the
null value, always produces a t-test with `df = n−1`, and adds a z-test iff
`n >= 30`.  `advanced_data_analytics.inferential_statistics` (lines 318–360)
instead tests only the first numeric column against `mean * 1.1` and requires
`len(df) > 30` for its z-test. -/

/-- The test-selection content of one `perform_one_sample_tests` result
(`advanced_analytics.py` lines 624–645).  The floating-point statistic values
(computed with square roots and the normal CDF) are not modelled; the null value,
the degrees of freedom and which tests run are. -/
structure OneSampleTests where
  hypothesized_mean : ℚ
  t_degrees_freedom : ℕ
  z_applicable : Bool
  deriving DecidableEq, Repr

/-- `advanced_analytics.py` lines 624–645: null value `data.median()`, t-test
`df = n − 1`, z-test present exactly when `n >= 30`. -/
def perform_one_sample_tests (data : List ℚ) : OneSampleTests :=
  { hypothesized_mean := pmedian data
    t_degrees_freedom := data.length - 1
    z_applicable := decide (30 ≤ data.length) }

/-- `advanced_analytics.py` lines 607–614: a numeric column gets one-sample tests
exactly when it has more than one distinct value and at least 3 values. -/
def column_one_sample_tests (data : List ℚ) : Option OneSampleTests :=
  if 1 < data.dedup.length ∧ 3 ≤ data.length then some (perform_one_sample_tests data)
  else none

/-- `advanced_data_analytics.py` line 319: `inferential_statistics` tests its (single,
first) column against `population_mean = df[test_column].mean() * 1.1`. -/
def inferential_null_value (xs : List ℚ) : ℚ := meanQ xs * (11/10)

/-- `advanced_data_analytics.py` line 347: the z-test of `inferential_statistics`
runs only when `len(df) > 30` (strictly greater). -/
def inferential_z_runs (n : ℕ) : Bool := decide (30 < n)

/-- C6 counterexample: on the column `[0, 0, 3]` (with `n = 3 ≥ 3`) the one-sample
test of the analytics engine the API imports (`inferential_statistics`) uses
`1.1·mean = 11/10` as its null value, not the column's median `0`; and at `n = 30`
exactly, that engine runs no z-test although the claim requires one for `n ≥ 30`. -/
theorem one_sample_null_not_median_cex :
    inferential_null_value [0, 0, 3] = 11/10 ∧
    pmedian [0, 0, 3] = 0 ∧
    inferential_null_value [0, 0, 3] ≠ pmedian [0, 0, 3] ∧
    inferential_z_runs 30 = false := by
  have hsorted : sortQ [0, 0, 3] = [0, 0, 3] := by
    norm_num [sortQ, List.insertionSort, List.orderedInsert]
  have hmed : pmedian [0, 0, 3] = 0 := by
    unfold pmedian quantile
    rw [hsorted]
    norm_num [quantileSorted]
  have hnull : inferential_null_value [0, 0, 3] = 11/10 := by
    norm_num [inferential_null_value, meanQ]
  refine ⟨hnull, hmed, ?_, by decide⟩
  rw [hnull, hmed]
  norm_num

/-- C6 (amended): in `advanced_analytics`, every numeric column that gets a
one-sample test (more than one distinct value, `n ≥ 3`) is tested against its own
median, always with a t-test of `df = n − 1`, and with a z-test exactly when
`n ≥ 30`; the `advanced_data_analytics` engine used by the API deviates (null
`1.1·mean`, first column only, z-test only for `n > 30`). -/
theorem one_sample_tests_spec (data : List ℚ) (r : OneSampleTests)
    (h : column_one_sample_tests data = some r) :
    r.hypothesized_mean = pmedian data ∧
    r.t_degrees_freedom = data.length - 1 ∧
    (r.z_applicable = true ↔ 30 ≤ data.length) := by
  unfold column_one_sample_tests at h
  split at h
  · cases h
    refine ⟨rfl, rfl, ?_⟩
    simp [perform_one_sample_tests]
  · cases h

/-- Witness for `one_sample_tests_spec` on the column `[0, 0, 3]`. -/
theorem one_sample_tests_spec_witness :
    (perform_one_sample_tests [0, 0, 3]).hypothesized_mean = pmedian [0, 0, 3] ∧
    (perform_one_sample_tests [0, 0, 3]).t_degrees_freedom = ([0, 0, 3] : List ℚ).length - 1 ∧
    ((perform_one_sample_tests [0, 0, 3]).z_applicable = true ↔ 30 ≤ ([0, 0, 3] : List ℚ).length) :=
  one_sample_tests_spec [0, 0, 3] (perform_one_sample_tests [0, 0, 3]) (by
    unfold column_one_sample_tests
    rw [if_pos]
    constructor
    · decide
    · decide)

/-! ## Chi-square goodness of fit (C7)

`advanced_analytics.perform_chi_square_tests`, goodness-of-fit branch
(lines 835–854). -/

/-- `df[col].value_counts()`: the distinct values of a categorical column with
their multiplicities (insertion order; `pandas` orders by count, which none of the
verified properties depend on). -/
def value_counts (xs : List String) : List (String × ℕ) :=
  xs.dedup.map (fun v => (v, (xs.filter (fun w => decide (w = v))).length))

/-- The numeric goodness-of-fit entry built at lines 844–854. -/
structure GoodnessOfFitResult where
  degrees_freedom : ℕ
  expected_frequency : ℚ
  observed : List (String × ℕ)
  deriving DecidableEq, Repr

/-- `advanced_analytics.py` lines 835–854: the goodness-of-fit entry for one
categorical column.  It is built only when the column has more than one distinct
value and the uniform expected frequency `n/k` is at least 5
(`all(e >= 5 for e in expected_uniform)`); in every other case the `if` has no
`else` and nothing is added to the result dict. -/
def goodness_of_fit (xs : List String) : Option GoodnessOfFitResult :=
  if 1 < (value_counts xs).length then
    if 5 ≤ (xs.length : ℚ) / ((value_counts xs).length : ℚ) then
      some { degrees_freedom := (value_counts xs).length - 1
             expected_frequency := (xs.length : ℚ) / ((value_counts xs).length : ℚ)
             observed := value_counts xs }
    else none
  else none

/-- C7 counterexample: the column `["A", "B", "C"]` has 3 categories with expected
uniform frequency `1 < 5`; its goodness-of-fit result is `none` — the entry is
silently omitted from the output, not reported as `not_applicable`. -/
theorem goodness_of_fit_silently_omitted_cex :
    1 < (value_counts ["A", "B", "C"]).length ∧
    ((["A", "B", "C"] : List String).length : ℚ)
        / ((value_counts ["A", "B", "C"]).length : ℚ) < 5 ∧
    goodness_of_fit ["A", "B", "C"] = none := by
  have hvc : value_counts ["A", "B", "C"] = [("A", 1), ("B", 1), ("C", 1)] := by decide
  refine ⟨by rw [hvc]; norm_num, by rw [hvc]; norm_num, ?_⟩
  unfold goodness_of_fit
  rw [hvc]
  norm_num

/-- C7 (amended): the goodness-of-fit test runs exactly under its preconditions — any
produced entry has more than one category and expected frequency `≥ 5` with
`df = k − 1`; when the expected frequency is below 5 the column's entry is `none`
(silent omission), never an explicit `not_applicable` report. -/
theorem goodness_of_fit_spec (xs : List String) :
    (∀ r, goodness_of_fit xs = some r →
      1 < (value_counts xs).length ∧
      5 ≤ (xs.length : ℚ) / ((value_counts xs).length : ℚ) ∧
      r.degrees_freedom = (value_counts xs).length - 1 ∧
      r.expected_frequency = (xs.length : ℚ) / ((value_counts xs).length : ℚ)) ∧
    (1 < (value_counts xs).length →
      (xs.length : ℚ) / ((value_counts xs).length : ℚ) < 5 →
      goodness_of_fit xs = none) := by
  unfold goodness_of_fit
  constructor
  · intro r h
    split at h
    · split at h
      · cases h
        exact ⟨by assumption, by assumption, rfl, rfl⟩
      · cases h
    · cases h
  · intro h1 h2
    rw [if_pos h1, if_neg (not_le.mpr h2)]

/-- Witness for `goodness_of_fit_spec`: a 10-row, 2-category column where the test
does run (expected frequency 5). -/
theorem goodness_of_fit_spec_witness :
    1 < (value_counts ["A", "A", "A", "A", "A", "B", "B", "B", "B", "B"]).length ∧
    5 ≤ ((["A", "A", "A", "A", "A", "B", "B", "B", "B", "B"] : List String).length : ℚ)
        / ((value_counts ["A", "A", "A", "A", "A", "B", "B", "B", "B", "B"]).length : ℚ) ∧
    (GoodnessOfFitResult.mk 1 5 [("A", 5), ("B", 5)]).degrees_freedom
      = (value_counts ["A", "A", "A", "A", "A", "B", "B", "B", "B", "B"]).length - 1 ∧
    (GoodnessOfFitResult.mk 1 5 [("A", 5), ("B", 5)]).expected_frequency
      = ((["A", "A", "A", "A", "A", "B", "B", "B", "B", "B"] : List String).length : ℚ)
        / ((value_counts ["A", "A", "A", "A", "A", "B", "B", "B", "B", "B"]).length : ℚ) :=
  (goodness_of_fit_spec _).1 (GoodnessOfFitResult.mk 1 5 [("A", 5), ("B", 5)]) (by
    have hvc : value_counts ["A", "A", "A", "A", "A", "B", "B", "B", "B", "B"]
        = [("A", 5), ("B", 5)] := by decide
    unfold goodness_of_fit
    rw [hvc]
    norm_num)

/-! ## Logistic regression class-variation check (C8)

`advanced_analytics.perform_logistic_regression` (lines 944–976) versus the branch
of `advanced_data_analytics.predictive_analytics` (lines 556–598) the API uses. -/

/-- Outcome of the pre-fit pipeline of `perform_logistic_regression`: the three
error dicts it can return before fitting, or reaching `log_model.fit`. -/
inductive LogisticOutcome
  | errNoTarget
  | errInsufficientClassVariation
  | errNoFeatures
  | fitted
  deriving DecidableEq, Repr

/-- Binary labeling (`advanced_analytics.py` lines 946–953):
`structural_risk_index > its median` when that column exists, else
`severity_level ∈ {Severe, Critical}` when that column exists. -/
def high_risk_labels (risk_index : Option (List ℚ)) (severity : Option (List String)) :
    Option (List Bool) :=
  match risk_index with
  | some ri => some (ri.map (fun v => decide (pmedian ri < v)))
  | none =>
    match severity with
    | some sv => some (sv.map (fun s => decide (s = "Severe") || decide (s = "Critical")))
    | none => none

/-- `advanced_analytics.py` lines 944–976 up to the fit: target creation, the
`len(class_distribution) < 2` check (returning the error dict
`'Insufficient class variation for logistic regression'`), the feature check, and
only then model fitting. -/
def perform_logistic_regression (risk_index : Option (List ℚ))
    (severity : Option (List String)) (feature_count : ℕ) : LogisticOutcome :=
  (high_risk_labels risk_index severity).elim LogisticOutcome.errNoTarget
    (fun labels =>
      if labels.dedup.length < 2 then LogisticOutcome.errInsufficientClassVariation
      else if feature_count = 0 then LogisticOutcome.errNoFeatures
      else LogisticOutcome.fitted)

/-- `advanced_data_analytics.py` lines 570–594: the logistic entry of
`predictive_analytics` is produced only when `len(X_cat) > 10` and the encoded
target has more than one distinct class; otherwise nothing is added to
`predictive_results` — no error entry of any kind. -/
def api_logistic_entry (target : List String) : Option (List String) :=
  if 10 < target.length ∧ 1 < target.dedup.length then some target.dedup else none

/-- C8 counterexample: a 20-row dataset whose severity column holds the single value
"Minor".  The analytics engine the API imports silently omits the logistic entry
(`none`) instead of surfacing an insufficient-class-variation error. -/
theorem logistic_single_class_omitted_cex :
    10 < (List.replicate 20 "Minor").length ∧
    (List.replicate 20 "Minor").dedup.length = 1 ∧
    api_logistic_entry (List.replicate 20 "Minor") = none := by
  refine ⟨by decide, ?_, ?_⟩ <;> decide

/-- C8 (amended): in `advanced_analytics.perform_logistic_regression`, a labeling
with fewer than 2 distinct classes always yields the insufficient-class-variation
error and the model is never fit; in the engine the API imports
(`advanced_data_analytics.predictive_analytics`) the same situation instead
produces no logistic entry at all. -/
theorem logistic_insufficient_classes_spec (risk_index : Option (List ℚ))
    (severity : Option (List String)) (fc : ℕ) (labels : List Bool)
    (h : high_risk_labels risk_index severity = some labels)
    (hcls : labels.dedup.length < 2) :
    perform_logistic_regression risk_index severity fc
      = LogisticOutcome.errInsufficientClassVariation ∧
    perform_logistic_regression risk_index severity fc ≠ LogisticOutcome.fitted := by
  unfold perform_logistic_regression
  rw [h]
  simp only [Option.elim]
  rw [if_pos hcls]
  exact ⟨rfl, by decide⟩

/-- Witness for `logistic_insufficient_classes_spec`: a two-row all-"Minor" severity
column (the spec's single-severity scenario). -/
theorem logistic_insufficient_classes_spec_witness :
    perform_logistic_regression none (some ["Minor", "Minor"]) 3
      = LogisticOutcome.errInsufficientClassVariation ∧
    perform_logistic_regression none (some ["Minor", "Minor"]) 3
      ≠ LogisticOutcome.fitted :=
  logistic_insufficient_classes_spec none (some ["Minor", "Minor"]) 3 [false, false]
    (by decide) (by decide)

/-! ## Float finiteness at the result boundary (C9)

The claim concerns non-finite floats escaping into the structured result.  Float
divisions are modelled exactly: a division by zero yields NaN (`0/0`) or a signed
infinity, everything else a finite rational; `np.sqrt` of a finite nonnegative
rational is represented symbolically (it is a finite real). -/

/-- The baseline record appended when no cracks were detected
(`advanced_analytics.py` lines 152–169). -/
def baseline_record (material : String) (cf wf : ℚ) (today : String)
    (d : RecordDraws) : IntegratedRecord :=
  { structure_id := "baseline_001"
    crack_width_mm := 0
    crack_length_mm := 0
    crack_area_mm2 := 0
    severity_level := "None"
    detection_confidence := 1
    material_type := material
    carbon_footprint_kg := cf
    water_footprint_liters := wf
    inspection_date := today
    structure_age_years := d.structure_age_years
    load_capacity_tons := d.load_capacity_tons
    weather_exposure := d.weather_exposure
    maintenance_history := d.maintenance_history }

/-- The simulated draws of one synthetic historical row
(`advanced_analytics.py` lines 172–189): every payload field is random. -/
structure HistDraws where
  crack_width_mm : ℚ
  crack_length_mm : ℚ
  crack_area_mm2 : ℚ
  severity_level : String
  detection_confidence : ℚ
  material_type : String
  carbon_footprint_kg : ℚ
  water_footprint_liters : ℚ
  inspection_date : String
  structure_age_years : ℕ
  load_capacity_tons : ℚ
  weather_exposure : String
  maintenance_history : String
  deriving DecidableEq, Repr

/-- Historical row `i` (`advanced_analytics.py` lines 172–189): id `hist_{i+1}`,
payload from the draws. -/
def make_historical_record (i : ℕ) (h : HistDraws) : IntegratedRecord :=
  { structure_id := "hist_" ++ toString (i + 1)
    crack_width_mm := h.crack_width_mm
    crack_length_mm := h.crack_length_mm
    crack_area_mm2 := h.crack_area_mm2
    severity_level := h.severity_level
    detection_confidence := h.detection_confidence
    material_type := h.material_type
    carbon_footprint_kg := h.carbon_footprint_kg
    water_footprint_liters := h.water_footprint_liters
    inspection_date := h.inspection_date
    structure_age_years := h.structure_age_years
    load_capacity_tons := h.load_capacity_tons
    weather_exposure := h.weather_exposure
    maintenance_history := h.maintenance_history }

/-- `advanced_analytics.py` lines 126–191: crack records, a baseline record if and
only if no crack record exists, then always 10 synthetic historical rows. -/
def retrieve_and_integrate_data (cracks : List Crack) (material : String) (cf wf : ℚ)
    (today : String) (drawAt : ℕ → RecordDraws) (baseDraw : RecordDraws)
    (histAt : ℕ → HistDraws) : List IntegratedRecord :=
  (if cracks.isEmpty then [baseline_record material cf wf today baseDraw]
   else cracks.enum.map (fun p => make_crack_record p.1 p.2 material cf wf today (drawAt p.1)))
  ++ (List.range 10).map (fun i => make_historical_record i (histAt i))

/-- The crack fields consumed by `advanced_data_analytics`'s integrator
(lines 101–113), which also carries a `label`. -/
structure ApiCrack where
  width_cm : ℚ
  length_cm : ℚ
  severity : String
  confidence : ℚ
  label : String
  deriving DecidableEq, Repr

/-- The per-day random draws of one synthetic daily row
(`advanced_data_analytics.py` lines 117–128). -/
structure DailyDraws where
  temperature_c : ℚ
  humidity_percent : ℚ
  stress_level : ℚ
  maintenance_cost : ℚ
  structural_integrity : ℚ
  material_type : String
  deriving DecidableEq, Repr

/-- One row of `advanced_data_analytics.retrieve_and_integrate_data`'s frame: a real
crack row or one of the synthetic daily rows (the two carry different keys). -/
inductive ApiRow
  | crackRow (crack_id : ℕ) (width_cm length_cm area_cm2 : ℚ)
      (severity : String) (confidence : ℚ) (label : String)
  | dailyRow (day : ℕ) (temperature_c humidity_percent stress_level
      maintenance_cost structural_integrity : ℚ) (material_type : String)
  deriving DecidableEq, Repr

/-- `advanced_data_analytics.py` lines 92–131: one crack row per detection, then
unconditionally 365 synthetic daily rows. -/
def api_retrieve_and_integrate (cracks : List ApiCrack) (dayDraw : ℕ → DailyDraws) :
    List ApiRow :=
  cracks.enum.map (fun p =>
    ApiRow.crackRow (p.1 + 1) p.2.width_cm p.2.length_cm (p.2.width_cm * p.2.length_cm)
      p.2.severity p.2.confidence p.2.label)
  ++ (List.range 365).map (fun i =>
    ApiRow.dailyRow i (dayDraw i).temperature_c (dayDraw i).humidity_percent
      (dayDraw i).stress_level (dayDraw i).maintenance_cost
      (dayDraw i).structural_integrity (dayDraw i).material_type)

/-- C10: for every input (any crack list, any draws) the `advanced_analytics`
integrator yields `max(crack_count, 1) + 10` rows — baseline row exactly when no
detections exist, plus the fixed block of 10 synthetic historical rows — and the
API's integrator yields `crack_count + 365` rows; both datasets are never empty. -/
theorem integration_always_padded (cracks : List Crack) (material : String)
    (cf wf : ℚ) (today : String) (drawAt : ℕ → RecordDraws) (baseDraw : RecordDraws)
    (histAt : ℕ → HistDraws) (acracks : List ApiCrack) (dayDraw : ℕ → DailyDraws) :
    (retrieve_and_integrate_data cracks material cf wf today drawAt baseDraw histAt).length
      = (if cracks.isEmpty then 1 else cracks.length) + 10 ∧
    retrieve_and_integrate_data cracks material cf wf today drawAt baseDraw histAt ≠ [] ∧
    (api_retrieve_and_integrate acracks dayDraw).length = acracks.length + 365 ∧
    api_retrieve_and_integrate acracks dayDraw ≠ [] := by
  have hlen :
      (retrieve_and_integrate_data cracks material cf wf today drawAt baseDraw histAt).length
        = (if cracks.isEmpty then 1 else cracks.length) + 10 := by
    unfold retrieve_and_integrate_data
    rw [List.length_append, List.length_map, List.length_range]
    congr 1
    by_cases hc : cracks.isEmpty
    · rw [if_pos hc, if_pos hc]
      rfl
    · rw [if_neg hc, if_neg hc, List.length_map, List.enum_length]
  have halen : (api_retrieve_and_integrate acracks dayDraw).length
      = acracks.length + 365 := by
    unfold api_retrieve_and_integrate
    simp [List.enum_length]
  refine ⟨hlen, ?_, halen, ?_⟩
  · intro h
    have h0 := congrArg List.length h
    rw [hlen] at h0
    simp at h0
  · intro h
    have h0 := congrArg List.length h
    rw [halen] at h0
    simp at h0

end CivilInfra
